import Mathlib

/-!
Verification of the games-catalog backend (`main.py`) against its
natural-language specification.

The repository's `database.py` (persistence gateway: `create_document`,
`get_documents`, the `db` handle) and `schemas.py` (the `Game` entity
schema) are not part of the provided sources; they are modelled from the
spec where needed, each such definition marked `Modelled from the spec:`.
Everything else is a shallow embedding of `main.py`.
-/

/-! ### Decimal rendering of identifiers (Python `str` on a numeric id) -/

/-- Little-endian base-10 digits, fuel-structured so it reduces in the kernel. -/
def natDigitsAux : Nat → Nat → List Nat
  | 0, _ => []
  | fuel + 1, n => if n = 0 then [] else n % 10 :: natDigitsAux fuel (n / 10)

/-- Little-endian base-10 digits of a natural number (empty for 0). -/
def natDigits (n : Nat) : List Nat := natDigitsAux n n

/-- Value of a little-endian digit list. -/
def ofDigits : List Nat → Nat
  | [] => 0
  | d :: ds => d + 10 * ofDigits ds

/-- One decimal digit as a character. -/
def digitChar : Nat → Char
  | 0 => '0' | 1 => '1' | 2 => '2' | 3 => '3' | 4 => '4'
  | 5 => '5' | 6 => '6' | 7 => '7' | 8 => '8' | 9 => '9'
  | _ => '*'

/-- Left inverse of `digitChar` on digits. -/
def charDigit (c : Char) : Nat :=
  if c = '0' then 0 else if c = '1' then 1 else if c = '2' then 2
  else if c = '3' then 3 else if c = '4' then 4 else if c = '5' then 5
  else if c = '6' then 6 else if c = '7' then 7 else if c = '8' then 8
  else if c = '9' then 9 else 10

/-- Decimal string of a natural number, the embedding of Python `str(n)`. -/
def natToStr (n : Nat) : String :=
  if n = 0 then "0" else String.mk ((natDigits n).reverse.map digitChar)

/-- Parse back a decimal string; used only to prove `natToStr` injective. -/
def strToNatAux (s : String) : Nat := ofDigits ((s.data.map charDigit).reverse)

theorem charDigit_digitChar : ∀ d : Nat, d < 10 → charDigit (digitChar d) = d := by
  decide

theorem ofDigits_natDigitsAux :
    ∀ fuel n : Nat, n ≤ fuel → ofDigits (natDigitsAux fuel n) = n := by
  intro fuel
  induction fuel with
  | zero => intro n hn; interval_cases n; rfl
  | succ f ih =>
    intro n hn
    by_cases h0 : n = 0
    · subst h0; simp [natDigitsAux, ofDigits]
    · have hdiv : n / 10 < n := Nat.div_lt_self (Nat.pos_of_ne_zero h0) (by decide)
      have hle : n / 10 ≤ f := by omega
      simp only [natDigitsAux, if_neg h0, ofDigits, ih _ hle]
      omega

theorem ofDigits_natDigits (n : Nat) : ofDigits (natDigits n) = n :=
  ofDigits_natDigitsAux n n (Nat.le_refl n)

theorem natDigitsAux_lt10 :
    ∀ fuel n d : Nat, d ∈ natDigitsAux fuel n → d < 10 := by
  intro fuel
  induction fuel with
  | zero => intro n d hd; simp [natDigitsAux] at hd
  | succ f ih =>
    intro n d hd
    by_cases h0 : n = 0
    · subst h0; simp [natDigitsAux] at hd
    · simp only [natDigitsAux, if_neg h0, List.mem_cons] at hd
      rcases hd with h | h
      · subst h; exact Nat.mod_lt _ (by decide)
      · exact ih _ _ h

theorem natDigits_lt10 (n d : Nat) (hd : d ∈ natDigits n) : d < 10 :=
  natDigitsAux_lt10 n n d hd

theorem strToNatAux_natToStr (n : Nat) : strToNatAux (natToStr n) = n := by
  by_cases h0 : n = 0
  · subst h0; rfl
  · have hdata : (natToStr n).data = (natDigits n).reverse.map digitChar := by
      simp [natToStr, if_neg h0]
    simp only [strToNatAux, hdata, List.map_map]
    have hcong : (natDigits n).reverse.map (charDigit ∘ digitChar)
        = (natDigits n).reverse.map id := by
      apply List.map_congr_left
      intro d hd
      have hd10 : d < 10 := natDigits_lt10 n d (List.mem_reverse.mp hd)
      simp [charDigit_digitChar d hd10]
    rw [hcong, List.map_id, List.reverse_reverse, ofDigits_natDigits]

theorem natToStr_injective : ∀ a b : Nat, natToStr a = natToStr b → a = b := by
  intro a b h
  have := congrArg strToNatAux h
  rwa [strToNatAux_natToStr, strToNatAux_natToStr] at this

theorem natToStr_ne_empty (n : Nat) : natToStr n ≠ "" := by
  by_cases h0 : n = 0
  · subst h0; intro h; simp [natToStr] at h
  · intro h
    have := congrArg strToNatAux h
    rw [strToNatAux_natToStr] at this
    exact h0 (this.trans rfl)

/-! ### Case-insensitive substring matching -/

/-- Does the first list start with the second? -/
def startsWithL : List Char → List Char → Bool
  | _, [] => true
  | [], _ :: _ => false
  | c :: cs, p :: ps => c == p && startsWithL cs ps

/-- Does the pattern occur as a contiguous sublist? -/
def occursIn (p : List Char) : List Char → Bool
  | [] => p.isEmpty
  | c :: cs => startsWithL (c :: cs) p || occursIn p cs

/-- Case-insensitive substring test: does `hay` contain `pat`? -/
def containsCI (hay pat : String) : Bool :=
  occursIn (pat.data.map Char.toLower) (hay.data.map Char.toLower)

theorem containsCI_empty_pat (s : String) : containsCI s "" = true := by
  unfold containsCI
  cases h : s.data.map Char.toLower with
  | nil => rfl
  | cons c cs => simp [occursIn, startsWithL]

/-! ### Data model

Modelled from the spec: `schemas.Game` is not under the provided sources;
its field set is given by the spec's data model section. -/

/-- Modelled from the spec: the `Game` entity schema of `schemas.py` —
`title`, `description`, `genre`, `platform`, `size_gb` (number),
`thumbnail`, `screenshots`, `download_url`. -/
structure Game where
  title : String
  description : String
  genre : String
  platform : String
  size_gb : Rat
  thumbnail : String
  screenshots : List String
  download_url : String
deriving DecidableEq

/-- A raw stored document: a `Game` plus the store's internal `_id`
(`none` models a document lacking the `_id` field). -/
structure StoredDoc where
  oid : Option Nat
  game : Game
deriving DecidableEq

/-- The document store state for the "game" collection: stored documents in
natural (insertion) order, plus the next surrogate identifier. -/
structure Store where
  docs : List StoredDoc
  nextId : Nat
deriving DecidableEq

/-! ### Filter structures, as built by `list_games` (main.py lines 86-92) -/

/-- One field condition of the filter dict:
`\x7b"field": \x7b"$regex": pattern, "$options": "i"\x7d\x7d`. -/
inductive FieldCond where
  | regexI (field : String) (pattern : String)
deriving DecidableEq

/-- The filter dict built by the catalog service: either the empty dict
`\x7b\x7d` or `\x7b"$or": [conds]\x7d`. -/
inductive FilterDict where
  | empty
  | orConds (conds : List FieldCond)
deriving DecidableEq

/-- Filter construction of `list_games` (main.py lines 86-92): Python
`if q:` is false exactly for `None` and the empty string. -/
def buildFilterDict : Option String → FilterDict
  | none => .empty
  | some s =>
    if s.isEmpty then .empty
    else .orConds [.regexI "title" s, .regexI "genre" s]

/-- String-valued field lookup on a game document, by field name. -/
def getStrField (g : Game) : String → Option String
  | "title" => some g.title
  | "description" => some g.description
  | "genre" => some g.genre
  | "platform" => some g.platform
  | "thumbnail" => some g.thumbnail
  | "download_url" => some g.download_url
  | _ => none

/-- Modelled from the spec: the Persistence Gateway (in `database.py`, not
under the provided sources) interprets a case-insensitive pattern condition
as a case-insensitive substring match on the named field. -/
def matchesCond (d : StoredDoc) : FieldCond → Bool
  | .regexI f p =>
    match getStrField d.game f with
    | some s => containsCI s p
    | none => false

/-- Modelled from the spec: the gateway's filter semantics — the empty
filter matches all documents; an or-filter matches when some condition does. -/
def matchesFilter (d : StoredDoc) : FilterDict → Bool
  | .empty => true
  | .orConds cs => cs.any (matchesCond d)

/-! ### Persistence Gateway operations (database.py, modelled from the spec) -/

/-- Modelled from the spec: `create_document(collection, record)` — inserts
the record with a fresh store-assigned surrogate identifier and returns that
identifier rendered as a string. -/
def create_document (s : Store) (g : Game) : String × Store :=
  (natToStr s.nextId, ⟨s.docs ++ [⟨some s.nextId, g⟩], s.nextId + 1⟩)

/-- Modelled from the spec: `get_documents(collection, filter, limit)` —
reads the documents satisfying the filter in the store's natural order,
capped at `limit` results; the empty filter matches all documents. -/
def get_documents (s : Store) (filter : FilterDict) (limit : Nat) : List StoredDoc :=
  (s.docs.filter (fun d => matchesFilter d filter)).take limit

/-! ### Catalog service (main.py) -/

/-- Embedding of `GameOut` (main.py lines 72-73): the public record shape — the game
fields plus a string `id`; it has no `_id` field. -/
structure GameOut extends Game where
  id : String
deriving DecidableEq

/-- Python `str(d.get("_id"))`: `str(None) = "None"`, a numeric id renders
in decimal. -/
def pyStrOptNat : Option Nat → String
  | none => "None"
  | some n => natToStr n

/-- Normalization loop body of `list_games` / `seed_sample_games`
(main.py lines 95-98 and 153-156): set `id` to `str(d.get("_id"))`, drop
`_id`, keep every other field. -/
def docToOut (d : StoredDoc) : GameOut :=
  { d.game with id := pyStrOptNat d.oid }

/-- Embedding of `list_games` (main.py lines 83-99), success path over a reachable
store: build the filter from `q`, read up to `limit` documents, normalize. -/
def list_games (s : Store) (q : Option String) (limit : Nat) : List GameOut :=
  (get_documents s (buildFilterDict q) limit).map docToOut

/-- The three fixed sample games of `seed_sample_games` (main.py lines 109-148). -/
def sample_games : List Game :=
  [ { title := "Starlight Odyssey"
    , description := "Explore a vast galaxy in this open-world space adventure."
    , genre := "Adventure"
    , platform := "PC"
    , size_gb := 12.5
    , thumbnail := "https://images.unsplash.com/photo-1586125674857-4c4a1b3e72d0"
    , screenshots :=
        [ "https://images.unsplash.com/photo-1542751110-97427bbecf20"
        , "https://images.unsplash.com/photo-1542831371-29b0f74f9713" ]
    , download_url := "https://example.com/download/starlight-odyssey" }
  , { title := "Neon Drift"
    , description := "High-speed neon-soaked racing in a cyberpunk city."
    , genre := "Racing"
    , platform := "PC"
    , size_gb := 8.2
    , thumbnail := "https://images.unsplash.com/photo-1511512578047-dfb367046420"
    , screenshots :=
        [ "https://images.unsplash.com/photo-1535223289827-42f1e9919769"
        , "https://images.unsplash.com/photo-1483721310020-03333e577078" ]
    , download_url := "https://example.com/download/neon-drift" }
  , { title := "Echoes of Eldoria"
    , description := "A story-driven RPG with tactical combat and rich lore."
    , genre := "RPG"
    , platform := "PC"
    , size_gb := 25.0
    , thumbnail := "https://images.unsplash.com/photo-1520975922371-24b89f8378fd"
    , screenshots :=
        [ "https://images.unsplash.com/photo-1486406146926-c627a92ad1ab" ]
    , download_url := "https://example.com/download/echoes-of-eldoria" } ]

/-- Embedding of `seed_sample_games` (main.py lines 103-157), success path: probe with a
single-document unrestricted read; if empty, insert the three samples; then
return the listing (limit 50) together with the resulting store. -/
def seed_sample_games (s : Store) : List GameOut × Store :=
  let existing := get_documents s .empty 1
  let s' :=
    if existing.isEmpty then
      sample_games.foldl (fun st g => (create_document st g).2) s
    else s
  ((get_documents s' .empty 50).map docToOut, s')

/-! ### Error layer: request handlers over a fallible gateway -/

/-- The HTTP error raised at the request boundary (`HTTPException(status_code, detail)`). -/
structure HTTPError where
  status_code : Nat
  detail : String
deriving DecidableEq

/-- A fallible view of the persistence gateway: each operation either
succeeds or raises an exception carrying a message (Python `str(e)`). -/
structure Gateway where
  create : Game → Except String String
  getDocs : FilterDict → Nat → Except String (List StoredDoc)

/-- Embedding of `create_game` (main.py lines 75-81): call the gateway; on success return
the new id, on any exception raise `HTTPException(500, str(e))`. -/
def create_game (gw : Gateway) (payload : Game) : Except HTTPError String :=
  match gw.create payload with
  | .ok new_id => .ok new_id
  | .error e => .error ⟨500, e⟩

/-- Embedding of `list_games` (main.py lines 83-101) over the fallible gateway: build the
filter, read, normalize; any exception becomes `HTTPException(500, str(e))`. -/
def list_gamesE (gw : Gateway) (q : Option String) (limit : Nat) :
    Except HTTPError (List GameOut) :=
  match gw.getDocs (buildFilterDict q) limit with
  | .ok docs => .ok (docs.map docToOut)
  | .error e => .error ⟨500, e⟩

/-! ### Diagnostics endpoint `/test` (main.py lines 29-63) -/

/-- Modelled from the spec: the module-level `db` handle of `database.py`.
`name` is `some` when the handle has a `name` attribute; calling
`list_collection_names` either returns the collection names or raises. -/
structure DbHandle where
  name : Option String
  listCollectionNames : Except String (List String)

/-- The response object assembled by the `/test` endpoint. `database_url`
and `database_name` start out as Python `None`, hence `Option String`. -/
structure TestResponse where
  backend : String
  database : String
  database_url : Option String
  database_name : Option String
  connection_status : String
  collections : List String
deriving DecidableEq

/-- Embedding of `test_database` (main.py lines 29-63). The only fallible operation in
the body is `db.list_collection_names()`, whose exception is caught by the
inner handler; the outer handler is therefore unreachable in this model,
and the endpoint is a total function into `TestResponse`. `urlSet` /
`nameSet` model whether the two environment variables are set. -/
def test_database (db : Option DbHandle) (urlSet nameSet : Bool) : TestResponse :=
  let response : TestResponse :=
    { backend := "✅ Running"
    , database := "❌ Not Available"
    , database_url := none
    , database_name := none
    , connection_status := "Not Connected"
    , collections := [] }
  let response :=
    match db with
    | some d =>
      let response :=
        { response with
            database := "✅ Available"
          , database_url := some "✅ Configured"
          , database_name := some (match d.name with
              | some nm => nm
              | none => "✅ Connected")
          , connection_status := "Connected" }
      match d.listCollectionNames with
      | .ok collections =>
        { response with
            collections := collections.take 10
          , database := "✅ Connected & Working" }
      | .error e =>
        { response with database := "⚠️  Connected but Error: " ++ e.take 50 }
    | none => { response with database := "⚠️  Available but not initialized" }
  { response with
      database_url := some (if urlSet then "✅ Set" else "❌ Not Set")
    , database_name := some (if nameSet then "✅ Set" else "❌ Not Set") }

/-! ### Helper predicates and concrete fixtures -/

/-- The condition the spec describes for a query hit: the search term occurs
case-insensitively in the title or in the genre. -/
def matchesQuery (g : Game) (q : String) : Bool :=
  containsCI g.title q || containsCI g.genre q

/-- Store well-formedness: every stored document carries a surrogate
identifier strictly below the store's next fresh identifier. Reachable
stores (built by `create_document` from an empty collection) satisfy it. -/
def Store.WF (s : Store) : Prop :=
  ∀ d ∈ s.docs, ∃ i, d.oid = some i ∧ i < s.nextId

/-- A minimal game record used in concrete instantiations. -/
def gA : Game :=
  { title := "a", description := "", genre := "g", platform := "PC"
  , size_gb := 1, thumbnail := "", screenshots := [], download_url := "" }

/-- A second game record, with a distinct title. -/
def gZ : Game :=
  { title := "Z", description := "", genre := "g", platform := "PC"
  , size_gb := 2, thumbnail := "", screenshots := [], download_url := "" }

/-- A store holding 51 copies of `gA` under distinct identifiers. -/
def store51 : Store :=
  ⟨(List.range 51).map (fun i => ⟨some i, gA⟩), 51⟩

/-- A store holding 50 copies of `gA` under distinct identifiers. -/
def store50 : Store :=
  ⟨(List.range 50).map (fun i => ⟨some i, gA⟩), 50⟩

/-- A store holding one document. -/
def store1 : Store := ⟨[⟨some 0, gA⟩], 1⟩

/-- The empty store. -/
def store0 : Store := ⟨[], 0⟩

/-- A gateway whose every operation raises with message "connection refused". -/
def downGateway : Gateway :=
  ⟨fun _ => .error "connection refused", fun _ _ => .error "connection refused"⟩

/-- A store whose single document lacks the internal `_id` field. -/
def store1n : Store := ⟨[⟨none, gA⟩], 5⟩

/-! ### Helper lemmas -/

theorem get_documents_empty_filter (s : Store) (limit : Nat) :
    get_documents s .empty limit = s.docs.take limit := by
  unfold get_documents
  rw [show (fun d => matchesFilter d .empty) = (fun _ : StoredDoc => true) from rfl,
    List.filter_true]

theorem list_games_none_eq (s : Store) (limit : Nat) :
    list_games s none limit = (s.docs.take limit).map docToOut := by
  unfold list_games
  rw [show buildFilterDict none = .empty from rfl, get_documents_empty_filter]

theorem matchesFilter_buildFilterDict (d : StoredDoc) (q : String) :
    matchesFilter d (buildFilterDict (some q)) = matchesQuery d.game q := by
  by_cases hq : q = ""
  · subst hq
    rw [show buildFilterDict (some "") = .empty from rfl]
    simp [matchesFilter, matchesQuery, containsCI_empty_pat]
  · have hne : q.isEmpty = false := by
      cases hIE : q.isEmpty
      · rfl
      · exact absurd ((String.isEmpty_iff q).mp hIE) hq
    simp [buildFilterDict, hne, matchesFilter, matchesCond, getStrField, matchesQuery]

/-! ### Claims -/

/-- C3: for every non-empty search term q the service builds the filter
(title matches q, case-insensitive) OR (genre matches q, case-insensitive),
which holds of a document exactly when the title or genre contains q
case-insensitively; with no term it builds the empty match-all filter. -/
theorem buildFilterDict_or_else_empty (q : String) (hq : q ≠ "") :
    buildFilterDict (some q)
      = .orConds [.regexI "title" q, .regexI "genre" q] ∧
    (∀ d : StoredDoc, matchesFilter d (buildFilterDict (some q))
      = (containsCI d.game.title q || containsCI d.game.genre q)) ∧
    buildFilterDict none = .empty ∧
    (∀ d : StoredDoc, matchesFilter d .empty = true) := by
  have hne : q.isEmpty = false := by
    cases hIE : q.isEmpty
    · rfl
    · exact absurd ((String.isEmpty_iff q).mp hIE) hq
  refine ⟨by simp [buildFilterDict, hne], fun d => ?_, rfl, fun d => rfl⟩
  exact matchesFilter_buildFilterDict d q

/-- Witness for C3 at the concrete term "rpg". -/
theorem buildFilterDict_or_else_empty_witness :
    buildFilterDict (some "rpg")
      = .orConds [.regexI "title" "rpg", .regexI "genre" "rpg"] ∧
    (∀ d : StoredDoc, matchesFilter d (buildFilterDict (some "rpg"))
      = (containsCI d.game.title "rpg" || containsCI d.game.genre "rpg")) ∧
    buildFilterDict none = .empty ∧
    (∀ d : StoredDoc, matchesFilter d .empty = true) :=
  buildFilterDict_or_else_empty "rpg" (by decide)

/-- C10: an empty-string search term is treated the same as no search term:
both build the empty match-all filter, so listing returns the same result
in every collection state. -/
theorem empty_term_same_as_none :
    (∀ (s : Store) (limit : Nat),
      list_games s (some "") limit = list_games s none limit) ∧
    buildFilterDict (some "") = buildFilterDict none :=
  ⟨fun _ _ => rfl, rfl⟩

/-- C6: every record returned by the listing operations comes from a stored
document; its `id` field is the stringified surrogate identifier, its game
fields pass through unchanged, and (structurally, since `GameOut` has no
`_id` field) the internal identifier is absent from the output. -/
theorem listing_normalizes (s : Store) (q : Option String) (limit : Nat) :
    (∀ g ∈ list_games s q limit,
      ∃ d ∈ s.docs, g = docToOut d ∧ g.id = pyStrOptNat d.oid ∧
        g.toGame = d.game) ∧
    (∀ g ∈ (seed_sample_games s).1,
      ∃ d ∈ (seed_sample_games s).2.docs, g = docToOut d ∧
        g.id = pyStrOptNat d.oid ∧ g.toGame = d.game) := by
  constructor
  · intro g hg
    obtain ⟨d, hd, rfl⟩ := List.mem_map.mp hg
    have hd' : d ∈ s.docs :=
      List.mem_of_mem_filter (List.mem_of_mem_take hd)
    exact ⟨d, hd', rfl, rfl, rfl⟩
  · intro g hg
    have hg' : g ∈ (get_documents (seed_sample_games s).2 .empty 50).map docToOut := by
      have hfst : (seed_sample_games s).1
          = (get_documents (seed_sample_games s).2 .empty 50).map docToOut := by
        unfold seed_sample_games
        by_cases h : (get_documents s .empty 1).isEmpty <;> simp [h]
      rwa [hfst] at hg
    obtain ⟨d, hd, rfl⟩ := List.mem_map.mp hg'
    rw [get_documents_empty_filter] at hd
    exact ⟨d, List.mem_of_mem_take hd, rfl, rfl, rfl⟩

/-- Witness for C6: in a one-document store, the listed record is the
normalization of that document. -/
theorem listing_normalizes_witness :
    ∃ d ∈ store1.docs, docToOut ⟨some 0, gA⟩ = docToOut d ∧
      (docToOut ⟨some 0, gA⟩).id = pyStrOptNat d.oid ∧
      (docToOut ⟨some 0, gA⟩).toGame = d.game :=
  (listing_normalizes store1 none 1).1 (docToOut ⟨some 0, gA⟩) (by decide)

/-- C9: a stored document lacking `_id` does not make listing fail: it is
listed with `id` equal to the literal non-empty string "None". -/
theorem listing_missing_id (s : Store) (d : StoredDoc) (limit : Nat)
    (hd : d ∈ s.docs) (hoid : d.oid = none) (hlim : s.docs.length ≤ limit) :
    docToOut d ∈ list_games s none limit ∧
    (docToOut d).id = "None" ∧ (docToOut d).id ≠ "" := by
  refine ⟨?_, ?_, ?_⟩
  · rw [list_games_none_eq, List.take_of_length_le hlim]
    exact List.mem_map_of_mem _ hd
  · show pyStrOptNat d.oid = "None"
    rw [hoid]
    rfl
  · show pyStrOptNat d.oid ≠ ""
    rw [hoid]
    decide

/-- Witness for C9 on a concrete store holding one `_id`-less document. -/
theorem listing_missing_id_witness :
    docToOut ⟨none, gA⟩ ∈ list_games store1n none 1 ∧
    (docToOut ⟨none, gA⟩).id = "None" ∧ (docToOut ⟨none, gA⟩).id ≠ "" :=
  listing_missing_id store1n ⟨none, gA⟩ 1 (by decide) rfl (by decide)

/-- C7: the diagnostics endpoint is a total function; for each state of the
database handle — unset, set but failing, or working — every failure mode is
rendered as a descriptive status string in the returned object. -/
theorem test_database_never_raises (db : Option DbHandle) (urlSet nameSet : Bool) :
    (db = none →
      (test_database db urlSet nameSet).database
        = "⚠️  Available but not initialized") ∧
    (∀ d e, db = some d → d.listCollectionNames = .error e →
      (test_database db urlSet nameSet).database
        = "⚠️  Connected but Error: " ++ e.take 50) ∧
    (∀ d cols, db = some d → d.listCollectionNames = .ok cols →
      (test_database db urlSet nameSet).database = "✅ Connected & Working" ∧
      (test_database db urlSet nameSet).collections = cols.take 10) := by
  refine ⟨?_, ?_, ?_⟩
  · rintro rfl
    rfl
  · rintro d e rfl hl
    simp [test_database, hl]
  · rintro d cols rfl hl
    simp [test_database, hl]

/-- Witness for C7 with a handle whose collection listing raises. -/
theorem test_database_never_raises_witness :
    (test_database (some ⟨some "appdb", .error "timeout"⟩) true false).database
      = "⚠️  Connected but Error: " ++ "timeout".take 50 :=
  (test_database_never_raises (some ⟨some "appdb", .error "timeout"⟩) true false).2.1
    ⟨some "appdb", .error "timeout"⟩ "timeout" rfl rfl

/-- C8: any persistence-layer exception during create or list is caught and
re-raised as HTTP 500 whose detail is the failure's string description. -/
theorem handlers_surface_500 (gw : Gateway) (payload : Game) (q : Option String)
    (limit : Nat) (m : String) :
    (gw.create payload = .error m →
      create_game gw payload = .error ⟨500, m⟩) ∧
    (gw.getDocs (buildFilterDict q) limit = .error m →
      list_gamesE gw q limit = .error ⟨500, m⟩) := by
  constructor
  · intro h
    simp [create_game, h]
  · intro h
    simp [list_gamesE, h]

/-- Witness for C8 with a gateway that always raises "connection refused". -/
theorem handlers_surface_500_witness :
    create_game downGateway gA = .error ⟨500, "connection refused"⟩ ∧
    list_gamesE downGateway none 50 = .error ⟨500, "connection refused"⟩ :=
  ⟨(handlers_surface_500 downGateway gA none 50 "connection refused").1 rfl,
   (handlers_surface_500 downGateway gA none 50 "connection refused").2 rfl⟩

/-- C1 counterexample: against a store already holding 50 documents, create
a record titled "Z"; the subsequent match-all listing at the endpoint's
default limit of 50 returns no record with that title (the new document,
appended in natural order, is truncated away), although it is stored. -/
theorem create_then_list_default_limit_cex :
    ((list_games (create_document store50 gZ).2 none 50).all
      (fun out => out.title != "Z")) = true ∧
    gZ.title = "Z" ∧
    (create_document store50 gZ).2.docs.length = 51 := by
  refine ⟨?_, rfl, rfl⟩
  decide

/-- C1 (amended): provided the listing's `limit` is at least the number of
stored documents, after creating R the match-all listing returns a record
whose fields equal R's and whose `id` is a non-empty string distinct from
the id of every previously stored record. -/
theorem create_then_list_returns_record (s : Store) (g : Game) (limit : Nat)
    (hwf : Store.WF s) (hlim : s.docs.length + 1 ≤ limit) :
    ∃ out ∈ list_games (create_document s g).2 none limit,
      out.toGame = g ∧ out.id ≠ "" ∧
      ∀ d ∈ s.docs, out.id ≠ pyStrOptNat d.oid := by
  have hdocs : (create_document s g).2.docs = s.docs ++ [⟨some s.nextId, g⟩] := rfl
  rw [list_games_none_eq, hdocs,
    List.take_of_length_le (by simpa using hlim)]
  refine ⟨docToOut ⟨some s.nextId, g⟩, ?_, rfl, ?_, ?_⟩
  · exact List.mem_map_of_mem _ (List.mem_append_right _ (by simp))
  · show pyStrOptNat (some s.nextId) ≠ ""
    exact natToStr_ne_empty _
  · intro d hd
    obtain ⟨i, hoid, hlt⟩ := hwf d hd
    rw [hoid]
    show natToStr s.nextId ≠ natToStr i
    intro h
    exact absurd (natToStr_injective _ _ h) (by omega)

/-- Witness for C1 (amended): create into a one-document store and list
with limit 2. -/
theorem create_then_list_returns_record_witness :
    ∃ out ∈ list_games (create_document store1 gZ).2 none 2,
      out.toGame = gZ ∧ out.id ≠ "" ∧
      ∀ d ∈ store1.docs, out.id ≠ pyStrOptNat d.oid :=
  create_then_list_returns_record store1 gZ 2
    (by
      intro d hd
      simp only [store1, List.mem_singleton] at hd
      subst hd
      exact ⟨0, rfl, Nat.zero_lt_one⟩)
    (by decide)

/-- C2 counterexample: in a store of 51 documents all matching the term
"a", the listing at the endpoint's default limit of 50 returns only 50
records, not the 51 matching ones. -/
theorem list_games_truncation_cex :
    store51.docs.all (fun d => matchesQuery d.game "a") = true ∧
    store51.docs.length = 51 ∧
    (list_games store51 (some "a") 50).length = 50 := by
  refine ⟨by decide, rfl, by decide⟩

/-- C2 (amended): listing with term q returns exactly the first `limit`
records (in store order) whose title or genre contains q case-insensitively,
and no others; in particular, when at most `limit` records match, exactly
the matching records are returned. -/
theorem list_games_filter_exact (s : Store) (q : String) (limit : Nat) :
    (list_games s (some q) limit).map GameOut.toGame
      = ((s.docs.filter (fun d => matchesQuery d.game q)).map
          StoredDoc.game).take limit := by
  have hf : s.docs.filter (fun d => matchesFilter d (buildFilterDict (some q)))
      = s.docs.filter (fun d => matchesQuery d.game q) :=
    List.filter_congr (fun d _ => matchesFilter_buildFilterDict d q)
  simp only [list_games, get_documents, hf, List.map_take, List.map_map]
  rfl

/-- C4: seeding a genuinely empty collection inserts exactly the three
fixed sample records, titled "Starlight Odyssey", "Neon Drift" and
"Echoes of Eldoria", and then returns their listing. -/
theorem seed_on_empty (s : Store) (h : s.docs = []) :
    (seed_sample_games s).2.docs.map StoredDoc.game = sample_games ∧
    (seed_sample_games s).2.docs.length = 3 ∧
    sample_games.map Game.title
      = ["Starlight Odyssey", "Neon Drift", "Echoes of Eldoria"] ∧
    (seed_sample_games s).1.map GameOut.toGame = sample_games := by
  obtain ⟨docs, nid⟩ := s
  simp only at h
  subst h
  exact ⟨rfl, rfl, rfl, rfl⟩

/-- Witness for C4 at the empty store. -/
theorem seed_on_empty_witness :
    (seed_sample_games store0).2.docs.map StoredDoc.game = sample_games ∧
    (seed_sample_games store0).2.docs.length = 3 ∧
    sample_games.map Game.title
      = ["Starlight Odyssey", "Neon Drift", "Echoes of Eldoria"] ∧
    (seed_sample_games store0).1.map GameOut.toGame = sample_games :=
  seed_on_empty store0 rfl

/-- C5: seeding a collection that already holds at least one document
performs no insertion — the store is unchanged, so in particular the total
stored document count is unchanged. -/
theorem seed_noop_on_nonempty (s : Store) (h : s.docs ≠ []) :
    (seed_sample_games s).2 = s ∧
    (seed_sample_games s).2.docs.length = s.docs.length := by
  obtain ⟨docs, nid⟩ := s
  cases docs with
  | nil => exact absurd rfl h
  | cons d ds => exact ⟨rfl, rfl⟩

/-- Witness for C5 at a one-document store. -/
theorem seed_noop_on_nonempty_witness :
    (seed_sample_games store1).2 = store1 ∧
    (seed_sample_games store1).2.docs.length = store1.docs.length :=
  seed_noop_on_nonempty store1 (by decide)
